import Mathlib

/-
Verification development for the anyset-oss repository.

This file shallowly embeds the TypeScript client library (the api-integration
DTO types, the ApiIntegration HTTP wrapper, and the Table component's data
transformation / pagination logic) together with the schema-driven validator
described by the repository's design document, and proves the stated
properties about them.

Conventions of the embedding:
- JavaScript numbers used as counts are modelled as Nat; numbers used as
  general quantities (pagination fields, fact-range bounds) as Int.
- JavaScript Date values are modelled as Int (epoch instants): only their
  ordering is relevant here.
- A nullable cell of a columnar response is a CellValue with a dedicated
  null constructor; a JavaScript undefined (absent property, out-of-bounds
  array read) is modelled as Option.none one level up.
-/

namespace AnySet

/-- Scalar cell of a columnar response: string, number, boolean or Date,
or SQL null, mirroring the data element type of QueryResponseDTO.columns. -/
inductive CellValue where
  | null
  | str (s : String)
  | num (n : Int)
  | bool (b : Bool)
  | date (d : Int)
  deriving DecidableEq, Repr

/-- Column kinds of the dataset schema: category, fact, date, other. -/
inductive ColumnKind where
  | category
  | fact
  | date
  | other
  deriving DecidableEq, Repr

/-- Dates in filter ranges, modelled as epoch instants. -/
abbrev DateValue := Int

/-- Values field of a range filter, mirroring the TypeScript union
of the two tuple types: the first component may be null while the second is
present, or the second may be null while the first is present. -/
inductive RangePair (α : Type) where
  | minOptional (min : Option α) (max : α)
  | maxOptional (min : α) (max : Option α)
  deriving DecidableEq, Repr

/-- Lower bound of a range pair, none meaning unbounded below. -/
def RangePair.minBound {α : Type} : RangePair α → Option α
  | .minOptional mn _ => mn
  | .maxOptional mn _ => some mn

/-- Upper bound of a range pair, none meaning unbounded above. -/
def RangePair.maxBound {α : Type} : RangePair α → Option α
  | .minOptional _ mx => some mx
  | .maxOptional _ mx => mx

/-- CategoryColumnFilter: set-membership filter over string values. -/
structure CategoryColumnFilter where
  column_name : String
  values : List String
  deriving DecidableEq, Repr

/-- FactColumnFilter: inclusive numeric range filter; the values tuple type
forbids both bounds being null. -/
structure FactColumnFilter where
  column_name : String
  values : RangePair Int
  deriving DecidableEq, Repr

/-- DateColumnFilter: inclusive date range filter; the values tuple type
forbids both bounds being null. -/
structure DateColumnFilter where
  column_name : String
  values : RangePair DateValue
  deriving DecidableEq, Repr

/-- ColumnFilter: the union of the three filter shapes, one constructor per
variant. -/
inductive ColumnFilter where
  | category (f : CategoryColumnFilter)
  | fact (f : FactColumnFilter)
  | date (f : DateColumnFilter)
  deriving DecidableEq, Repr

/-- Column kind a filter variant is for, read off the variant tag alone. -/
def ColumnFilter.filterKind : ColumnFilter → ColumnKind
  | .category _ => .category
  | .fact _ => .fact
  | .date _ => .date

/-- Column name a filter refers to. -/
def ColumnFilter.columnName : ColumnFilter → String
  | .category g => g.column_name
  | .fact g => g.column_name
  | .date g => g.column_name

/-- Aggregation function names appearing in the DTO module. -/
inductive AggregationFunction where
  | COUNT
  | COUNT_DISTINCT
  | SUM
  | AVG
  | MEDIAN
  | MIN
  | MAX
  deriving DecidableEq, Repr

/-- FACT_COLUMN_AGGREGATION_FUNCTIONS constant of the DTO module. -/
def FACT_COLUMN_AGGREGATION_FUNCTIONS : List AggregationFunction :=
  [.COUNT, .COUNT_DISTINCT, .SUM, .AVG, .MEDIAN, .MIN, .MAX]

/-- ANY_COLUMN_AGGREGATION_FUNCTIONS constant of the DTO module. -/
def ANY_COLUMN_AGGREGATION_FUNCTIONS : List AggregationFunction :=
  [.COUNT, .COUNT_DISTINCT]

/-- FactColumnAggregationFunction: member of FACT_COLUMN_AGGREGATION_FUNCTIONS. -/
def FactColumnAggregationFunction : Type :=
  {f : AggregationFunction // f ∈ FACT_COLUMN_AGGREGATION_FUNCTIONS}

/-- AnyColumnAggregationFunction: member of ANY_COLUMN_AGGREGATION_FUNCTIONS. -/
def AnyColumnAggregationFunction : Type :=
  {f : AggregationFunction // f ∈ ANY_COLUMN_AGGREGATION_FUNCTIONS}

/-- FactColumnAggregation variant of the Aggregation union. -/
structure FactColumnAggregation where
  column_name : String
  function : FactColumnAggregationFunction
  «alias» : String

/-- AnyColumnAggregation variant of the Aggregation union. -/
structure AnyColumnAggregation where
  column_name : String
  function : AnyColumnAggregationFunction
  «alias» : String

/-- Aggregation: union of the any-column and fact-column variants. -/
inductive Aggregation where
  | any (a : AnyColumnAggregation)
  | fact (a : FactColumnAggregation)

/-- Aggregation function carried by an aggregation value. -/
def Aggregation.aggFunction : Aggregation → AggregationFunction
  | .any a => a.function.val
  | .fact a => a.function.val

/-- Set of function names legal for the variant of an aggregation value. -/
def Aggregation.legalFunctionSet : Aggregation → List AggregationFunction
  | .any _ => ANY_COLUMN_AGGREGATION_FUNCTIONS
  | .fact _ => FACT_COLUMN_AGGREGATION_FUNCTIONS

/-- Column name an aggregation refers to. -/
def Aggregation.columnName : Aggregation → String
  | .any a => a.column_name
  | .fact a => a.column_name

/-- Alias an aggregation exposes its result under. -/
def Aggregation.aliasName : Aggregation → String
  | .any a => a.«alias»
  | .fact a => a.«alias»

/-- Select entry: column name with optional alias. -/
structure Select where
  column_name : String
  «alias» : Option String

/-- OrderByDirection: ASC or DESC. -/
inductive OrderByDirection where
  | ASC
  | DESC
  deriving DecidableEq, Repr

/-- OrderBy entry: column name and direction. -/
structure OrderBy where
  column_name : String
  direction : OrderByDirection

/-- Pagination: offset and limit. -/
structure Pagination where
  offset : Int
  limit : Int
  deriving DecidableEq, Repr

/-- QueryRequestDTO with its four column-name type parameters instantiated at
String, as ApiIntegration does by default; optional fields are Options. -/
structure QueryRequestDTO where
  table_name : String
  select : Option (List Select)
  aggregations : Option (List Aggregation)
  filters : Option (List ColumnFilter)
  order_by : Option (List OrderBy)
  pagination : Option Pagination

/-- Column of a columnar query response: alias, optional breakdown, data. -/
structure ResponseColumn where
  «alias» : String
  breakdown : Option String
  data : List CellValue
  deriving DecidableEq, Repr

/-- QueryResponseDTO. The columns field is an Option so that the runtime
guard in transformData, which tests the property's presence before using it,
is representable; the declared type always has it present. -/
structure QueryResponseDTO where
  dataset : String
  version : Int
  record_count_current_page : Nat
  record_count_total : Nat
  columns : Option (List ResponseColumn)
  deriving DecidableEq, Repr

/-- FilterOptionValue: a flat enumeration node with label and value and no
children field (children is typed never in the source). -/
structure FilterOptionValue (T : Type) where
  label : String
  value : T
  deriving DecidableEq, Repr

mutual

/-- FilterOptionHierarchicalValue: an enumeration node with label, value and
a mandatory children field. -/
inductive FilterOptionHierarchicalValue (T : Type) where
  | mk (label : String) (value : T) (children : FilterOptionChildren T)

/-- Children of a hierarchical node: either a list of hierarchical nodes or
a list of flat nodes, over the same value type, as in the source union. -/
inductive FilterOptionChildren (T : Type) where
  | hierarchical (nodes : List (FilterOptionHierarchicalValue T))
  | flat (nodes : List (FilterOptionValue T))

end

/-- Union of the flat and hierarchical node shapes at one value type. -/
abbrev FilterOptionNode (T : Type) := FilterOptionValue T ⊕ FilterOptionHierarchicalValue T

/-- Entry of a FilterOptionResponseDTO record: a flat or hierarchical node
over string values or over number values. -/
abbrev FilterOptionEntry := FilterOptionNode String ⊕ FilterOptionNode Int

/-- FilterOptionResponseDTO: an array of records keyed by column name. -/
abbrev FilterOptionResponseDTO := List (List (String × FilterOptionEntry))

/-- Tells whether a filter-option node carries a children field. -/
def FilterOptionNode.hasChildren {T : Type} : FilterOptionNode T → Bool
  | .inl _ => false
  | .inr _ => true

/-
Table component (Table.tsx).
-/

/-- Row record assembled by transformData: a JavaScript object built by
assigning record[col.alias] = col.data[i] column by column, modelled as the
assignment list in column order. A later assignment to the same key
overwrites an earlier one, which recordGet accounts for. Cell reads out of
bounds yield JavaScript undefined, modelled as none. -/
abbrev RowRecord := List (String × Option CellValue)

/-- Value found at a key of a row record, preferring the latest assignment,
as JavaScript property assignment overwrites earlier values. Returns none
when no assignment to the key exists. -/
def recordGet : RowRecord → String → Option (Option CellValue)
  | [], _ => none
  | (k, v) :: rest, key =>
    match recordGet rest key with
    | some v' => some v'
    | none => if k = key then some v else none

/-- Record built for row index i: one assignment per response column, in
column order, of the column's cell at index i. -/
def buildRecord (cols : List ResponseColumn) (i : Nat) : RowRecord :=
  cols.map fun c => (c.«alias», c.data.get? i)

/-- transformData of Table.tsx: turns an optional columnar response into a
list of row records, returning the empty list when the response is absent,
its columns property is absent or empty, or the current-page record count is
zero; otherwise builds one record per row index below the count. -/
def transformData (apiResponse : Option QueryResponseDTO) : List RowRecord :=
  match apiResponse with
  | none => []
  | some resp =>
    match resp.columns with
    | none => []
    | some cols =>
      if cols.length = 0 then []
      else if resp.record_count_current_page = 0 then []
      else (List.range resp.record_count_current_page).map (buildRecord cols)

/-- Query request assembled by the Table component's queryFn: placeholder
table name, the current filters, and pagination whose offset is computed by
the useLazyLoading conditional exactly as in the source (both branches
multiply pageIndex by pageSize) and whose limit is the page size. -/
def buildQueryRequest (filters : List ColumnFilter) (useLazyLoading : Bool)
    (pageIndex pageSize : Int) : QueryRequestDTO :=
  { table_name := "default_table_name_placeholder"
    select := none
    aggregations := none
    filters := some filters
    order_by := none
    pagination := some
      { limit := pageSize
        offset := if useLazyLoading then pageIndex * pageSize else pageIndex * pageSize } }

/-- pageCount of the Table component: ceil(record_count_total / pageSize)
when the response is present and its total count is truthy (nonzero), and -1
otherwise. The JavaScript float division followed by Math.ceil is modelled
as exact rational division followed by the integer ceiling; the theorem
about it assumes a positive page size, where the two agree. -/
def pageCount (response : Option QueryResponseDTO) (pageSize : Nat) : Int :=
  match response with
  | none => -1
  | some resp =>
    if resp.record_count_total = 0 then -1
    else Int.ceil ((resp.record_count_total : ℚ) / (pageSize : ℚ))

/-
ApiIntegration (api-integration.ts).
-/

/-- Result of the regular-expression test of the source guard: the decimal
string of the status consists of the character 2 followed by exactly two
decimal digits. -/
def statusMatches2xx (status : Nat) : Bool :=
  match (toString status).data with
  | ['2', d1, d2] => d1.isDigit && d2.isDigit
  | _ => false

/-- HTTP response triple as destructured by the ApiIntegration methods. -/
structure HttpResponse (α : Type) where
  status : Nat
  statusText : String
  data : α

/-- ApiIntegration.query: throws QueryError with the status and status text
unless the status passes the 2xx pattern test, in which case the body is
returned unchanged. -/
def ApiIntegration.query (resp : HttpResponse QueryResponseDTO) :
    Except String QueryResponseDTO :=
  if ! statusMatches2xx resp.status then
    .error ("QueryError " ++ toString resp.status ++ " " ++ resp.statusText)
  else
    .ok resp.data

/-- ApiIntegration.fetchFilterOptions: same 2xx guard as query, with the
FetchFilterOptionsError message. -/
def ApiIntegration.fetchFilterOptions (resp : HttpResponse FilterOptionResponseDTO) :
    Except String FilterOptionResponseDTO :=
  if ! statusMatches2xx resp.status then
    .error ("FetchFilterOptionsError " ++ toString resp.status ++ " " ++ resp.statusText)
  else
    .ok resp.data

/-
Validator. The validation engine itself ships in the repository's Python
backend package, whose sources are not part of the visible tree; the
definitions below are therefore modelled from the design document alone.
-/

/-- Modelled from the spec: a typed column of the Schema Registry, name and
kind. The backend source holding the registry implementation is missing
from the visible tree. -/
structure RegistryColumn where
  name : String
  kind : ColumnKind
  deriving DecidableEq, Repr

/-- Modelled from the spec: a table of the Schema Registry, owning its
columns. -/
structure RegistryTable where
  name : String
  columns : List RegistryColumn
  deriving DecidableEq, Repr

/-- Modelled from the spec: the Schema Registry consulted by validation,
with the configurable page-size ceiling used by the pagination check. -/
structure SchemaRegistry where
  tables : List RegistryTable
  maxPageSize : Int
  deriving DecidableEq, Repr

/-- Table of the registry with the given name, if any. -/
def SchemaRegistry.lookupTable (reg : SchemaRegistry) (t : String) : Option RegistryTable :=
  reg.tables.find? fun tb => tb.name = t

/-- Column of a registry table with the given name, if any. -/
def RegistryTable.lookupColumn (tb : RegistryTable) (c : String) : Option RegistryColumn :=
  tb.columns.find? fun col => col.name = c

/-- Column of the named table of the registry, if both exist. -/
def SchemaRegistry.lookupColumn (reg : SchemaRegistry) (t c : String) : Option RegistryColumn :=
  (reg.lookupTable t).bind fun tb => tb.lookupColumn c

/-- Modelled from the spec: legal aggregation function set per column kind;
the extended numeric set applies only to fact columns, the any-kind set to
every other kind. -/
def legalAggregations : ColumnKind → List AggregationFunction
  | .fact => FACT_COLUMN_AGGREGATION_FUNCTIONS
  | _ => ANY_COLUMN_AGGREGATION_FUNCTIONS

/-- Modelled from the spec: a validation error with a field path and a
reason, structured enough to drive a UI. -/
structure ValidationError where
  fieldPath : String
  reason : String
  deriving DecidableEq, Repr

/-- Modelled from the spec: the result of validation, either the request
accepted unchanged or the list of all violations. -/
inductive ValidationResult where
  | ok (request : QueryRequestDTO)
  | errors (violations : List ValidationError)

/-- Column names referenced anywhere in a request: selects, aggregations,
filters and order-by entries. -/
def referencedColumns (r : QueryRequestDTO) : List String :=
  (r.select.getD []).map Select.column_name ++
  (r.aggregations.getD []).map Aggregation.columnName ++
  (r.filters.getD []).map ColumnFilter.columnName ++
  (r.order_by.getD []).map OrderBy.column_name

/-- Modelled from the spec, check 1: the requested table exists in the
registry. -/
def checkTableExists (r : QueryRequestDTO) (reg : SchemaRegistry) : List ValidationError :=
  if (reg.lookupTable r.table_name).isSome then []
  else [⟨"table_name", "table " ++ r.table_name ++ " does not exist"⟩]

/-- Modelled from the spec, check 2: every referenced column exists on the
requested table; one error per offending reference, naming that column. -/
def checkColumnsExist (r : QueryRequestDTO) (reg : SchemaRegistry) : List ValidationError :=
  (referencedColumns r).filterMap fun c =>
    if (reg.lookupColumn r.table_name c).isSome then none
    else some ⟨"column " ++ c, "column " ++ c ++ " does not exist on table " ++ r.table_name⟩

/-- Modelled from the spec, check 3: every aggregation function is legal for
its column's kind; unknown function names are unrepresentable in the typed
embedding of the function sets. Columns that do not resolve are left to
check 2. -/
def checkAggregationFunctions (r : QueryRequestDTO) (reg : SchemaRegistry) : List ValidationError :=
  (r.aggregations.getD []).filterMap fun a =>
    match reg.lookupColumn r.table_name a.columnName with
    | none => none
    | some col =>
      if a.aggFunction ∈ legalAggregations col.kind then none
      else some ⟨"aggregation " ++ a.aliasName,
        "function is not legal for the kind of column " ++ a.columnName⟩

/-- Modelled from the spec, check 4: every filter variant matches its
column's kind; mismatches are an error, never a coercion. -/
def checkFilterKinds (r : QueryRequestDTO) (reg : SchemaRegistry) : List ValidationError :=
  (r.filters.getD []).filterMap fun f =>
    match reg.lookupColumn r.table_name f.columnName with
    | none => none
    | some col =>
      if col.kind = f.filterKind then none
      else some ⟨"filter " ++ f.columnName,
        "filter variant does not match the kind of column " ++ f.columnName⟩

/-- Tells whether a range with both bounds present is ordered; a range with
an absent bound is vacuously ordered. -/
def RangePair.ordered : RangePair Int → Bool
  | .minOptional none _ => true
  | .minOptional (some mn) mx => mn ≤ mx
  | .maxOptional _ none => true
  | .maxOptional mn (some mx) => mn ≤ mx

/-- Modelled from the spec, check 5: range filters with both bounds present
must have min at most max; the at-least-one-bound half of the check is
enforced by the range value type itself. -/
def checkRangeBounds (r : QueryRequestDTO) : List ValidationError :=
  (r.filters.getD []).filterMap fun f =>
    match f with
    | .category _ => none
    | .fact g =>
      if g.values.ordered then none
      else some ⟨"filter " ++ g.column_name, "range min is greater than range max"⟩
    | .date g =>
      if g.values.ordered then none
      else some ⟨"filter " ++ g.column_name, "range min is greater than range max"⟩

/-- Aliases exposed by a request: each select under its alias when present,
its column name otherwise, and each aggregation under its alias. -/
def requestAliases (r : QueryRequestDTO) : List String :=
  (r.select.getD []).map (fun s => s.«alias».getD s.column_name) ++
  (r.aggregations.getD []).map Aggregation.aliasName

/-- Modelled from the spec, check 6: alias uniqueness across the combined
select and aggregation list; one error per duplicated alias. -/
def checkAliasUniqueness (r : QueryRequestDTO) : List ValidationError :=
  ((requestAliases r).dedup.filter fun a => 1 < (requestAliases r).count a).map
    fun a => ⟨"alias " ++ a, "alias " ++ a ++ " is not unique"⟩

/-- Modelled from the spec, check 7: pagination bounds, offset nonnegative,
limit positive, limit at most the configured ceiling. -/
def checkPagination (r : QueryRequestDTO) (reg : SchemaRegistry) : List ValidationError :=
  match r.pagination with
  | none => []
  | some p =>
    (if p.offset < 0 then [⟨"pagination.offset", "offset must be nonnegative"⟩] else []) ++
    (if p.limit ≤ 0 then [⟨"pagination.limit", "limit must be positive"⟩] else []) ++
    (if reg.maxPageSize < p.limit then
      [⟨"pagination.limit", "limit exceeds the maximum page size"⟩] else [])

/-- Modelled from the spec, check 8: a request must project something, so an
empty select together with an empty aggregation list is rejected. -/
def checkProjection (r : QueryRequestDTO) : List ValidationError :=
  if (r.select.getD []).isEmpty && (r.aggregations.getD []).isEmpty then
    [⟨"select", "request must select or aggregate at least one column"⟩]
  else []

/-- Modelled from the spec: all violations of a request against a registry,
in check order, every check run unconditionally. -/
def collectViolations (r : QueryRequestDTO) (reg : SchemaRegistry) : List ValidationError :=
  checkTableExists r reg ++
  checkColumnsExist r reg ++
  checkAggregationFunctions r reg ++
  checkFilterKinds r reg ++
  checkRangeBounds r ++
  checkAliasUniqueness r ++
  checkPagination r reg ++
  checkProjection r

/-- Modelled from the spec: validate returns the request unchanged when no
check produced a violation, and the full violation list otherwise. -/
def validate (r : QueryRequestDTO) (reg : SchemaRegistry) : ValidationResult :=
  let errs := collectViolations r reg
  if errs.isEmpty then .ok r else .errors errs

/-
Helper lemmas.
-/

/-- A range pair always has a present bound on at least one side. -/
lemma RangePair.minBound_or_maxBound {α : Type} (v : RangePair α) :
    v.minBound.isSome = true ∨ v.maxBound.isSome = true := by
  cases v with
  | minOptional mn mx => right; rfl
  | maxOptional mn mx => left; rfl

/-- Looking up a key assigned by no column of a record yields nothing. -/
lemma recordGet_buildRecord_of_not_mem (cols : List ResponseColumn) (i : Nat) (key : String)
    (h : key ∉ cols.map ResponseColumn.«alias») :
    recordGet (buildRecord cols i) key = none := by
  induction cols with
  | nil => rfl
  | cons c rest ih =>
    simp only [List.map_cons, List.mem_cons, not_or] at h
    obtain ⟨h1, h2⟩ := h
    simp only [buildRecord, List.map_cons, recordGet] at *
    rw [ih h2]
    exact if_neg fun hq => h1 hq.symm

/-- With pairwise distinct aliases, the record of row i maps each column's
alias to that column's cell at index i. -/
lemma recordGet_buildRecord (cols : List ResponseColumn)
    (hnd : (cols.map ResponseColumn.«alias»).Nodup) (i : Nat)
    (c : ResponseColumn) (hc : c ∈ cols) :
    recordGet (buildRecord cols i) c.«alias» = some (c.data.get? i) := by
  induction cols with
  | nil => cases hc
  | cons c0 rest ih =>
    simp only [List.map_cons, List.nodup_cons] at hnd
    obtain ⟨h0, hnd'⟩ := hnd
    rcases List.mem_cons.mp hc with rfl | hmem
    · have hnone := recordGet_buildRecord_of_not_mem rest i c.«alias» h0
      simp only [buildRecord, List.map_cons, recordGet] at hnone ⊢
      rw [hnone]
      simp
    · have hrec := ih hnd' hmem
      simp only [buildRecord, List.map_cons, recordGet] at hrec ⊢
      rw [hrec]

/-
Claim theorems.
-/

/-- C2: in every FactColumnFilter and every DateColumnFilter at least one of
the two range bounds is non-null, and a filter value with both bounds null
is not a constructible value of the filter type. -/
theorem claim_C2 :
    (∀ f : FactColumnFilter,
      f.values.minBound.isSome = true ∨ f.values.maxBound.isSome = true) ∧
    (∀ f : DateColumnFilter,
      f.values.minBound.isSome = true ∨ f.values.maxBound.isSome = true) ∧
    (¬ ∃ f : FactColumnFilter, f.values.minBound = none ∧ f.values.maxBound = none) ∧
    (¬ ∃ f : DateColumnFilter, f.values.minBound = none ∧ f.values.maxBound = none) := by
  refine ⟨fun f => f.values.minBound_or_maxBound, fun f => f.values.minBound_or_maxBound, ?_, ?_⟩
  · rintro ⟨f, h1, h2⟩
    rcases f.values.minBound_or_maxBound with h | h <;> simp_all
  · rintro ⟨f, h1, h2⟩
    rcases f.values.minBound_or_maxBound with h | h <;> simp_all

/-- C2 witness: a concrete fact filter with an open lower bound has a
present upper bound. -/
theorem claim_C2_witness :
    (FactColumnFilter.mk "amt" (RangePair.minOptional none 7)).values.minBound.isSome = true ∨
    (FactColumnFilter.mk "amt" (RangePair.minOptional none 7)).values.maxBound.isSome = true :=
  claim_C2.1 (FactColumnFilter.mk "amt" (RangePair.minOptional none 7))

/-- C3: the any-kind aggregation function set is exactly COUNT and
COUNT_DISTINCT, the fact set is exactly COUNT, COUNT_DISTINCT, SUM, AVG,
MEDIAN, MIN, MAX, the any-kind set is a subset of the fact set, and every
Aggregation value carries a function from the set of its variant. -/
theorem claim_C3 :
    (∀ f : AggregationFunction, f ∈ ANY_COLUMN_AGGREGATION_FUNCTIONS ↔
      (f = .COUNT ∨ f = .COUNT_DISTINCT)) ∧
    (∀ f : AggregationFunction, f ∈ FACT_COLUMN_AGGREGATION_FUNCTIONS ↔
      (f = .COUNT ∨ f = .COUNT_DISTINCT ∨ f = .SUM ∨ f = .AVG ∨
       f = .MEDIAN ∨ f = .MIN ∨ f = .MAX)) ∧
    (ANY_COLUMN_AGGREGATION_FUNCTIONS.all
      (fun f => f ∈ FACT_COLUMN_AGGREGATION_FUNCTIONS) = true) ∧
    (∀ a : Aggregation, a.aggFunction ∈ a.legalFunctionSet) := by
  refine ⟨fun f => by cases f <;> decide, fun f => by cases f <;> decide, by decide, fun a => ?_⟩
  cases a with
  | any x => exact x.function.property
  | fact x => exact x.function.property

/-- C3 witness: a concrete fact aggregation with function MEDIAN carries a
function of the fact set. -/
theorem claim_C3_witness :
    (Aggregation.fact (FactColumnAggregation.mk "amt" ⟨.MEDIAN, by decide⟩ "m")).aggFunction ∈
      (Aggregation.fact (FactColumnAggregation.mk "amt" ⟨.MEDIAN, by decide⟩ "m")).legalFunctionSet :=
  claim_C3.2.2.2 (Aggregation.fact (FactColumnAggregation.mk "amt" ⟨.MEDIAN, by decide⟩ "m"))

/-- C4: for every page index and page size, the request the Table
component's queryFn builds is identical in lazy-loading and page-based
mode, and its pagination is offset = pageIndex * pageSize with
limit = pageSize in both modes. -/
theorem claim_C4 (filters : List ColumnFilter) (pageIndex pageSize : Int) :
    buildQueryRequest filters true pageIndex pageSize =
      buildQueryRequest filters false pageIndex pageSize ∧
    ∀ lazy : Bool, (buildQueryRequest filters lazy pageIndex pageSize).pagination =
      some { offset := pageIndex * pageSize, limit := pageSize } := by
  refine ⟨rfl, fun lazy => ?_⟩
  cases lazy <;> rfl

/-- C5: the filter model is a union of exactly three variants, category,
fact and date, the variant tag alone determines the column kind a filter is
for, and the tag is independent of the filter's values. -/
theorem claim_C5 (f : ColumnFilter) :
    ((∃ g, f = ColumnFilter.category g) ∨ (∃ g, f = ColumnFilter.fact g) ∨
      (∃ g, f = ColumnFilter.date g)) ∧
    (f.filterKind = ColumnKind.category ↔ ∃ g, f = ColumnFilter.category g) ∧
    (f.filterKind = ColumnKind.fact ↔ ∃ g, f = ColumnFilter.fact g) ∧
    (f.filterKind = ColumnKind.date ↔ ∃ g, f = ColumnFilter.date g) ∧
    f.filterKind ≠ ColumnKind.other ∧
    (∀ g1 g2 : CategoryColumnFilter,
      (ColumnFilter.category g1).filterKind = (ColumnFilter.category g2).filterKind) ∧
    (∀ g1 g2 : FactColumnFilter,
      (ColumnFilter.fact g1).filterKind = (ColumnFilter.fact g2).filterKind) ∧
    (∀ g1 g2 : DateColumnFilter,
      (ColumnFilter.date g1).filterKind = (ColumnFilter.date g2).filterKind) := by
  cases f <;> simp [ColumnFilter.filterKind]

/-- C5 witness: a concrete category filter has the category tag and is the
category variant. -/
theorem claim_C5_witness :
    (ColumnFilter.category (CategoryColumnFilter.mk "state" ["CA"])).filterKind =
        ColumnKind.category ↔
      ∃ g, ColumnFilter.category (CategoryColumnFilter.mk "state" ["CA"]) =
        ColumnFilter.category g :=
  (claim_C5 (ColumnFilter.category (CategoryColumnFilter.mk "state" ["CA"]))).2.1

/-- C7: every filter-option node is either a flat node, which has no
children field, or a hierarchical node, whose children are themselves a list
of hierarchical or a list of flat nodes over the same value type; no node is
both shapes. -/
theorem claim_C7 {T : Type} (n : FilterOptionNode T) :
    ((∃ v : FilterOptionValue T, n = Sum.inl v ∧ n.hasChildren = false) ∨
     (∃ h : FilterOptionHierarchicalValue T, n = Sum.inr h ∧ n.hasChildren = true ∧
       ((∃ label value hs, h = FilterOptionHierarchicalValue.mk label value
          (FilterOptionChildren.hierarchical hs)) ∨
        (∃ label value fs, h = FilterOptionHierarchicalValue.mk label value
          (FilterOptionChildren.flat fs))))) ∧
    ¬ ((∃ v : FilterOptionValue T, n = Sum.inl v) ∧
       (∃ h : FilterOptionHierarchicalValue T, n = Sum.inr h)) := by
  constructor
  · cases n with
    | inl v => exact Or.inl ⟨v, rfl, rfl⟩
    | inr h =>
      refine Or.inr ⟨h, rfl, rfl, ?_⟩
      cases h with
      | mk label value c =>
        cases c with
        | hierarchical hs => exact Or.inl ⟨label, value, hs, rfl⟩
        | flat fs => exact Or.inr ⟨label, value, fs, rfl⟩
  · rintro ⟨⟨v, hv⟩, ⟨h, hh⟩⟩
    rw [hv] at hh
    cases hh

/-- C7 witness: a concrete flat node over string values is the flat shape
without a children field. -/
theorem claim_C7_witness :
    ((∃ v : FilterOptionValue String,
        (Sum.inl (FilterOptionValue.mk "CA" "CA") : FilterOptionNode String) = Sum.inl v ∧
        FilterOptionNode.hasChildren
          (Sum.inl (FilterOptionValue.mk "CA" "CA") : FilterOptionNode String) = false) ∨
     (∃ h : FilterOptionHierarchicalValue String,
        (Sum.inl (FilterOptionValue.mk "CA" "CA") : FilterOptionNode String) = Sum.inr h ∧
        FilterOptionNode.hasChildren
          (Sum.inl (FilterOptionValue.mk "CA" "CA") : FilterOptionNode String) = true ∧
        ((∃ label value hs, h = FilterOptionHierarchicalValue.mk label value
           (FilterOptionChildren.hierarchical hs)) ∨
         (∃ label value fs, h = FilterOptionHierarchicalValue.mk label value
           (FilterOptionChildren.flat fs))))) :=
  (claim_C7 (Sum.inl (FilterOptionValue.mk "CA" "CA") : FilterOptionNode String)).1

/-- C10: transformData returns the empty list when its input is absent, has
no columns property, has an empty columns list, or has a zero current-page
record count, including a positive record count with an empty columns list. -/
theorem claim_C10 (resp : QueryResponseDTO) :
    transformData none = [] ∧
    (resp.columns = none → transformData (some resp) = []) ∧
    (resp.columns = some [] → transformData (some resp) = []) ∧
    (resp.record_count_current_page = 0 → transformData (some resp) = []) ∧
    (0 < resp.record_count_current_page → resp.columns = some [] →
      transformData (some resp) = []) := by
  refine ⟨rfl, ?_, ?_, ?_, ?_⟩
  · intro h
    simp [transformData, h]
  · intro h
    simp [transformData, h]
  · intro h
    rcases hc : resp.columns with _ | cols
    · simp [transformData, hc]
    · simp [transformData, hc, h]
  · intro _ h
    simp [transformData, h]

/-- Response with a positive record count but no columns, as the Table test
helper produces for an empty page. -/
def emptyColumnsResponse : QueryResponseDTO :=
  { dataset := "test-dataset"
    version := 1
    record_count_current_page := 3
    record_count_total := 5
    columns := some [] }

/-- C10 witness: the concrete response with three claimed records but an
empty columns list transforms to no rows. -/
theorem claim_C10_witness :
    0 < emptyColumnsResponse.record_count_current_page ∧
    transformData (some emptyColumnsResponse) = [] :=
  ⟨by decide, (claim_C10 emptyColumnsResponse).2.2.2.2 (by decide) rfl⟩

/-- First column of the duplicate-alias response: alias a, datum 1. -/
def dupAliasColumnA : ResponseColumn :=
  { «alias» := "a", breakdown := none, data := [CellValue.num 1] }

/-- Second column of the duplicate-alias response: alias a again, datum 2. -/
def dupAliasColumnB : ResponseColumn :=
  { «alias» := "a", breakdown := none, data := [CellValue.num 2] }

/-- Response whose two columns share the alias a with different data, each of
length equal to the current-page record count. -/
def dupAliasResponse : QueryResponseDTO :=
  { dataset := "d"
    version := 1
    record_count_current_page := 1
    record_count_total := 1
    columns := some [dupAliasColumnA, dupAliasColumnB] }

/-- C1 counterexample: the claim as stated fails on the response whose two
columns share one alias: the record of row zero maps the shared alias to the
second column's datum (JavaScript assignment overwrites), not to the first
column's, although the first column satisfies every stated hypothesis. -/
theorem claim_C1_counterexample :
    ¬ (∀ (resp : QueryResponseDTO) (cols : List ResponseColumn),
        resp.columns = some cols → cols ≠ [] →
        (∀ c ∈ cols, c.data.length = resp.record_count_current_page) →
        ((transformData (some resp)).length = resp.record_count_current_page ∧
         ∀ i r, (transformData (some resp)).get? i = some r →
           ∀ c ∈ cols, recordGet r c.«alias» = some (c.data.get? i))) := by
  intro h
  have h2 := (h dupAliasResponse [dupAliasColumnA, dupAliasColumnB] rfl (by decide)
    (by decide)).2
  have h3 := h2 0 (buildRecord [dupAliasColumnA, dupAliasColumnB] 0) (by decide)
    dupAliasColumnA (by decide)
  revert h3
  decide

/-- C1 amended: for every QueryResponseDTO whose columns list is non-empty,
whose column aliases are pairwise distinct, and in which every column's data
sequence has length equal to record_count_current_page, transformData
returns exactly record_count_current_page row records, and the record at
each row index i maps the alias of every column c to the element of c's
data at index i (which exists). -/
theorem claim_C1_amended (resp : QueryResponseDTO) (cols : List ResponseColumn)
    (hcols : resp.columns = some cols) (hne : cols ≠ [])
    (hlen : ∀ c ∈ cols, c.data.length = resp.record_count_current_page)
    (hnd : (cols.map ResponseColumn.«alias»).Nodup) :
    (transformData (some resp)).length = resp.record_count_current_page ∧
    ∀ i r, (transformData (some resp)).get? i = some r →
      ∀ c ∈ cols, recordGet r c.«alias» = some (c.data.get? i) ∧
        (c.data.get? i).isSome = true := by
  have hlc : cols.length ≠ 0 := fun hz => hne (List.length_eq_zero.mp hz)
  by_cases hrc : resp.record_count_current_page = 0
  · refine ⟨by simp [transformData, hcols, hlc, hrc], fun i r hr => ?_⟩
    rw [show transformData (some resp) = [] by simp [transformData, hcols, hlc, hrc]] at hr
    simp at hr
  · have htd : transformData (some resp) =
        (List.range resp.record_count_current_page).map (buildRecord cols) := by
      simp [transformData, hcols, hlc, hrc]
    refine ⟨by rw [htd]; simp, fun i r hr => ?_⟩
    rw [htd, List.get?_eq_getElem?, List.getElem?_map] at hr
    rcases hlt : (List.range resp.record_count_current_page)[i]? with _ | v
    · rw [hlt] at hr; simp at hr
    · rw [hlt] at hr
      have hi : i < resp.record_count_current_page := by
        have hs := List.getElem?_eq_some_iff.mp hlt
        simpa using hs.1
      have hv : v = i := by
        have h3 := List.getElem?_range hi
        rw [hlt] at h3; cases h3; rfl
      simp only [Option.map_some'] at hr
      rw [hv] at hr
      have hreq : r = buildRecord cols i := (Option.some_inj.mp hr).symm
      subst hreq
      intro c hcmem
      refine ⟨recordGet_buildRecord cols hnd i c hcmem, ?_⟩
      have hlen' := hlen c hcmem
      rw [List.get?_eq_getElem?, List.getElem?_eq_getElem (by omega)]
      rfl

/-- Columns of the well-formed example response: distinct aliases, two rows
each. -/
def exampleColumns : List ResponseColumn :=
  [{ «alias» := "id", breakdown := none, data := [CellValue.num 1, CellValue.num 2] },
   { «alias» := "name", breakdown := none, data := [CellValue.str "x", CellValue.str "y"] }]

/-- Well-formed two-row response over the example columns. -/
def exampleResponse : QueryResponseDTO :=
  { dataset := "test-dataset"
    version := 1
    record_count_current_page := 2
    record_count_total := 2
    columns := some exampleColumns }

/-- C1 witness: on the concrete two-column, two-row response the transform
yields two records and row zero maps alias id to the first datum of the id
column. -/
theorem claim_C1_amended_witness :
    (transformData (some exampleResponse)).length = 2 ∧
    recordGet (buildRecord exampleColumns 0) "id" = some (some (CellValue.num 1)) := by
  have h := claim_C1_amended exampleResponse exampleColumns rfl (by decide) (by decide)
    (by decide)
  refine ⟨h.1, ?_⟩
  have h2 := (h.2 0 (buildRecord exampleColumns 0) (by decide)
    { «alias» := "id", breakdown := none, data := [CellValue.num 1, CellValue.num 2] }
    (by decide)).1
  rw [h2]
  decide

/-
Helper for C8: the pattern test agrees with the 200 to 299 range on every
three-digit-or-shorter status.
-/

set_option maxRecDepth 40000 in
set_option maxHeartbeats 4000000 in
/-- Statuses below 1000 pass the 2xx pattern test exactly when they lie
between 200 and 299. -/
lemma statusMatches2xx_eq : ∀ s : Nat, s < 1000 →
    statusMatches2xx s = decide (200 ≤ s ∧ s ≤ 299) := by decide

/-- Query response used as a concrete body in the C8 witness. -/
def exampleQueryBody : QueryResponseDTO :=
  { dataset := "d", version := 1, record_count_current_page := 0,
    record_count_total := 0, columns := some [] }

/-- Filter-option response used as a concrete body in the C8 witness. -/
def exampleFilterOptionBody : FilterOptionResponseDTO := []

/-- C8: for every status of at most three decimal digits, ApiIntegration
query returns the body unchanged exactly when the status's decimal string is
2 followed by two digits, equivalently 200 to 299, and otherwise throws
QueryError with the status and status text; fetchFilterOptions applies the
same guard with the FetchFilterOptionsError message. -/
theorem claim_C8 (status : Nat) (h : status ≤ 999) (statusText : String)
    (qdata : QueryResponseDTO) (fdata : FilterOptionResponseDTO) :
    (statusMatches2xx status = true ↔ (200 ≤ status ∧ status ≤ 299)) ∧
    (ApiIntegration.query ⟨status, statusText, qdata⟩ = Except.ok qdata ↔
      (200 ≤ status ∧ status ≤ 299)) ∧
    (¬ (200 ≤ status ∧ status ≤ 299) →
      ApiIntegration.query ⟨status, statusText, qdata⟩ =
        Except.error ("QueryError " ++ toString status ++ " " ++ statusText)) ∧
    (ApiIntegration.fetchFilterOptions ⟨status, statusText, fdata⟩ = Except.ok fdata ↔
      (200 ≤ status ∧ status ≤ 299)) ∧
    (¬ (200 ≤ status ∧ status ≤ 299) →
      ApiIntegration.fetchFilterOptions ⟨status, statusText, fdata⟩ =
        Except.error ("FetchFilterOptionsError " ++ toString status ++ " " ++ statusText)) := by
  have key := statusMatches2xx_eq status (by omega)
  by_cases hs : 200 ≤ status ∧ status ≤ 299
  · rw [key]
    simp [ApiIntegration.query, ApiIntegration.fetchFilterOptions, key, hs]
  · rw [key]
    simp [ApiIntegration.query, ApiIntegration.fetchFilterOptions, key, hs]

/-- C8 witness: status 404 makes query throw QueryError 404 Not Found, and
status 200 makes it return the body unchanged. -/
theorem claim_C8_witness :
    (404 : Nat) ≤ 999 ∧
    ApiIntegration.query ⟨404, "Not Found", exampleQueryBody⟩ =
      Except.error "QueryError 404 Not Found" ∧
    ApiIntegration.query ⟨200, "OK", exampleQueryBody⟩ = Except.ok exampleQueryBody := by
  refine ⟨by decide, ?_, ?_⟩
  · have h := (claim_C8 404 (by decide) "Not Found" exampleQueryBody
      exampleFilterOptionBody).2.2.1 (by decide)
    rw [h]
    exact congrArg Except.error (by decide)
  · exact (claim_C8 200 (by decide) "OK" exampleQueryBody
      exampleFilterOptionBody).2.1.mpr (by decide)

/-
Helper for C9: the integer form of the ceiling of a division of naturals.
-/

/-- Ceiling of a rational division of naturals, as natural arithmetic. -/
lemma ceil_div_nat_eq (t ps : Nat) (hps : 0 < ps) :
    (((t + ps - 1) / ps : Nat) : ℤ) = Int.ceil ((t : ℚ) / (ps : ℚ)) := by
  have hpsQ : (0:ℚ) < (ps : ℚ) := by exact_mod_cast hps
  apply le_antisymm
  · have hz : ((t : ℚ) / (ps : ℚ)) ≤ (Int.ceil ((t : ℚ) / (ps : ℚ)) : ℚ) := Int.le_ceil _
    have hz0 : 0 ≤ Int.ceil ((t : ℚ) / (ps : ℚ)) := by
      apply Int.ceil_nonneg
      positivity
    rw [div_le_iff₀ hpsQ] at hz
    have hz' : (t : ℤ) ≤ Int.ceil ((t : ℚ) / (ps : ℚ)) * ps := by exact_mod_cast hz
    set z := Int.ceil ((t : ℚ) / (ps : ℚ)) with hzdef
    have hzt : z = (z.toNat : ℤ) := (Int.toNat_of_nonneg hz0).symm
    rw [hzt]
    have hle : (t + ps - 1) / ps ≤ z.toNat := by
      have ht : t ≤ z.toNat * ps := by
        have h2 := hz'
        rw [hzt] at h2
        exact_mod_cast h2
      rw [Nat.mul_comm] at ht
      exact (Nat.div_le_iff_le_mul_add_pred hps).mpr (by omega)
    exact_mod_cast hle
  · rw [Int.ceil_le]
    have key : t ≤ (t + ps - 1) / ps * ps := by
      have h2 := Nat.lt_div_mul_add (a := t + ps - 1) hps
      omega
    rw [div_le_iff₀ hpsQ]
    push_cast
    exact_mod_cast key

/-- C9: with a positive page size, the Table component's page count is the
ceiling of record_count_total divided by the page size when the total is
positive, and is the unknown sentinel -1 when the response is absent or the
total is zero. -/
theorem claim_C9 (pageSize : Nat) (hps : 0 < pageSize) (resp : QueryResponseDTO) :
    pageCount none pageSize = -1 ∧
    (resp.record_count_total = 0 → pageCount (some resp) pageSize = -1) ∧
    (0 < resp.record_count_total →
      pageCount (some resp) pageSize =
        Int.ceil ((resp.record_count_total : ℚ) / (pageSize : ℚ)) ∧
      pageCount (some resp) pageSize =
        ((resp.record_count_total + pageSize - 1) / pageSize : Nat)) := by
  refine ⟨rfl, fun hz => by simp [pageCount, hz], fun hp => ?_⟩
  have hne : resp.record_count_total ≠ 0 := by omega
  refine ⟨by simp [pageCount, hne], ?_⟩
  simp only [pageCount, hne, if_neg (fun hq => hne hq)]
  exact (ceil_div_nat_eq resp.record_count_total pageSize hps).symm

/-- Response with 95 total records, used in the C9 witness. -/
def totalsResponse : QueryResponseDTO :=
  { dataset := "test-dataset", version := 1, record_count_current_page := 10,
    record_count_total := 95, columns := some [] }

/-- C9 witness: 95 total records at page size 10 give 10 pages. -/
theorem claim_C9_witness :
    0 < (10 : Nat) ∧ 0 < totalsResponse.record_count_total ∧
    pageCount (some totalsResponse) 10 = 10 := by
  refine ⟨by decide, by decide, ?_⟩
  have h := ((claim_C9 10 (by decide) totalsResponse).2.2 (by decide)).2
  rw [h]
  decide

/-- C6: validate returns either the request accepted unchanged or the full
list of violations of every check collected together: it is accepted exactly
when no check found a violation, and each of the eight checks contributes
its whole violation list to the reported result, so validation never stops
at the first violation. -/
theorem claim_C6 (r : QueryRequestDTO) (reg : SchemaRegistry) :
    (validate r reg = ValidationResult.ok r ∨
      validate r reg = ValidationResult.errors (collectViolations r reg)) ∧
    (validate r reg = ValidationResult.ok r ↔ collectViolations r reg = []) ∧
    (checkTableExists r reg).Sublist (collectViolations r reg) ∧
    (checkColumnsExist r reg).Sublist (collectViolations r reg) ∧
    (checkAggregationFunctions r reg).Sublist (collectViolations r reg) ∧
    (checkFilterKinds r reg).Sublist (collectViolations r reg) ∧
    (checkRangeBounds r).Sublist (collectViolations r reg) ∧
    (checkAliasUniqueness r).Sublist (collectViolations r reg) ∧
    (checkPagination r reg).Sublist (collectViolations r reg) ∧
    (checkProjection r).Sublist (collectViolations r reg) := by
  refine ⟨?_, ?_, ?_, ?_, ?_, ?_, ?_, ?_, ?_, ?_⟩
  · by_cases he : (collectViolations r reg).isEmpty
    · left
      simp [validate, he]
    · right
      simp [validate, he]
  · constructor
    · intro hv
      by_cases he : (collectViolations r reg).isEmpty
      · exact List.isEmpty_iff.mp he
      · rw [show validate r reg = ValidationResult.errors (collectViolations r reg) by
          simp [validate, he]] at hv
        cases hv
    · intro hv
      simp [validate, hv]
  · exact ((((((List.sublist_append_left _ _).trans
      (List.sublist_append_left _ _)).trans (List.sublist_append_left _ _)).trans
      (List.sublist_append_left _ _)).trans (List.sublist_append_left _ _)).trans
      (List.sublist_append_left _ _)).trans (List.sublist_append_left _ _)
  · exact ((((((List.sublist_append_right _ _).trans
      (List.sublist_append_left _ _)).trans (List.sublist_append_left _ _)).trans
      (List.sublist_append_left _ _)).trans (List.sublist_append_left _ _)).trans
      (List.sublist_append_left _ _)).trans (List.sublist_append_left _ _)
  · exact (((((List.sublist_append_right _ _).trans
      (List.sublist_append_left _ _)).trans (List.sublist_append_left _ _)).trans
      (List.sublist_append_left _ _)).trans (List.sublist_append_left _ _)).trans
      (List.sublist_append_left _ _)
  · exact ((((List.sublist_append_right _ _).trans
      (List.sublist_append_left _ _)).trans (List.sublist_append_left _ _)).trans
      (List.sublist_append_left _ _)).trans (List.sublist_append_left _ _)
  · exact (((List.sublist_append_right _ _).trans
      (List.sublist_append_left _ _)).trans (List.sublist_append_left _ _)).trans
      (List.sublist_append_left _ _)
  · exact ((List.sublist_append_right _ _).trans
      (List.sublist_append_left _ _)).trans (List.sublist_append_left _ _)
  · exact (List.sublist_append_right _ _).trans (List.sublist_append_left _ _)
  · exact List.sublist_append_right _ _

/-- Registry with one table of one category column, used in the C6 witness. -/
def exampleRegistry : SchemaRegistry :=
  { tables := [{ name := "cc_transactions",
                 columns := [{ name := "state", kind := ColumnKind.category }] }]
    maxPageSize := 100 }

/-- Request with two independent violations, a missing column and an
invalid pagination limit, used in the C6 witness. -/
def twoViolationRequest : QueryRequestDTO :=
  { table_name := "cc_transactions"
    select := some [{ column_name := "city", «alias» := none }]
    aggregations := none
    filters := none
    order_by := none
    pagination := some { offset := 0, limit := 0 } }

/-- C6 witness: on the concrete request carrying both a missing column and a
zero limit, validate reports both violations together in one error list. -/
theorem claim_C6_witness :
    validate twoViolationRequest exampleRegistry =
      ValidationResult.errors (collectViolations twoViolationRequest exampleRegistry) ∧
    (checkColumnsExist twoViolationRequest exampleRegistry).length = 1 ∧
    (checkPagination twoViolationRequest exampleRegistry).length = 1 ∧
    (collectViolations twoViolationRequest exampleRegistry).length = 2 := by
  have h := claim_C6 twoViolationRequest exampleRegistry
  refine ⟨?_, by decide, by decide, by decide⟩
  rcases h.1 with hok | herr
  · exact absurd (h.2.1.mp hok) (by decide)
  · exact herr

end AnySet
